import Mathlib

/-!
Shallow embedding of the Bookworm backend identity and session core
(`src/services/auth.service.ts`) over an explicit database state.
Prisma tables become Lean lists, JS `Date` values become milliseconds
as `Nat`, thrown `AppError`s become `Except.error`, and each service
method becomes a state-passing function returning the result together
with the database after the call (so partial effects of a method that
throws midway are preserved, as they are without a transaction).
External collaborators (bcrypt, crypto randomness, the mailer, the
geoip service) are passed in as explicit parameters.
-/

/-- Milliseconds since the epoch: the embedding of a JS `Date`. -/
abbrev Millis := Nat

/-- Role enum from the Prisma schema (`Role.USER`, `Role.ADMIN`). -/
inductive Role where
  | USER
  | ADMIN
  deriving DecidableEq, Repr

/-- VerificationType enum from the Prisma schema. -/
inductive VerificationType where
  | EMAIL_VERIFICATION
  | PASSWORD_RESET
  deriving DecidableEq, Repr

/-- The `AppError` thrown throughout the service layer
(`new AppError(message, statusCode, code)`). -/
structure AppError where
  message : String
  statusCode : Nat
  code : String
  deriving DecidableEq, Repr

/-- User row (Prisma `User`), fields used by `auth.service.ts`. -/
structure User where
  id : String
  username : String
  email : String
  password : String
  fullName : Option String
  displayName : String
  bio : Option String
  location : Option String
  roles : List Role
  isEmailVerified : Bool
  createdAt : Millis
  updatedAt : Millis
  deriving DecidableEq, Repr

/-- A user with the password hash removed: the return shape
`Omit<User, "password">` of every user-returning service method. -/
structure SafeUser where
  id : String
  username : String
  email : String
  fullName : Option String
  displayName : String
  bio : Option String
  location : Option String
  roles : List Role
  isEmailVerified : Bool
  createdAt : Millis
  updatedAt : Millis
  deriving DecidableEq, Repr

/-- Session row (Prisma `Session`). -/
structure Session where
  id : String
  userId : String
  token : String
  csrfSecret : String
  expiresAt : Millis
  ipAddress : Option String
  location : Option String
  device : Option String
  userAgent : Option String
  createdAt : Millis
  deriving DecidableEq, Repr

/-- Verification row (Prisma `Verification`). -/
structure Verification where
  id : String
  userId : String
  token : String
  vtype : VerificationType
  expiresAt : Millis
  usedAt : Option Millis
  deriving DecidableEq, Repr

/-- The persistent store: the three tables the auth service touches. -/
structure DB where
  users : List User
  sessions : List Session
  verifications : List Verification
  deriving DecidableEq, Repr

/-- Configuration values read from `config` (defaults from `config.ts`). -/
structure Config where
  BCRYPT_ROUNDS : Nat := 12
  SESSION_EXPIRY_DAYS : Nat := 30
  VERIFICATION_EXPIRY_HOURS : Nat := 24
  deriving DecidableEq, Repr

/-- The bcrypt collaborator: `bcrypt.hash(pw, rounds)` and
`bcrypt.compare(pw, hash)`, abstracted as pure functions. -/
structure Bcrypt where
  hash : String → Nat → String
  compare : String → String → Bool

/-- LocationInfo as produced by the geoip service; only `formatted`
is consumed by the auth service. -/
structure LocationInfo where
  formatted : String
  deriving DecidableEq, Repr

/-- RegisterData input of `register`. -/
structure RegisterData where
  username : String
  email : String
  password : String
  fullName : Option String := none
  displayName : Option String := none
  deriving DecidableEq, Repr

/-- SessionData input of `createSession` / `login`. -/
structure SessionData where
  ipAddress : Option String := none
  userAgent : Option String := none
  device : Option String := none
  location : Option String := none
  deriving DecidableEq, Repr

/-- The `session` part of a `LoginResult`. -/
structure SessionSummary where
  token : String
  expiresAt : Millis
  deriving DecidableEq, Repr

/-- LoginResult returned by `login`. -/
structure LoginResult where
  user : SafeUser
  session : SessionSummary
  locationInfo : Option LocationInfo
  deriving DecidableEq, Repr

/-- JS truthiness of a string: `""` is falsy. -/
def jsTruthy (s : String) : Bool := !(s == "")

/-- JS truthiness of an optional string: `undefined` and `""` are falsy. -/
def jsTruthyOpt : Option String → Bool
  | some s => jsTruthy s
  | none => false

/-- JS `a || b` where `a` is an optional string and `b` a string. -/
def jsOrStr (a : Option String) (b : String) : String :=
  match a with
  | some s => if s = "" then b else s
  | none => b

/-- JS `a || b` on two optional strings (left-associated chains). -/
def jsOrOpt (a b : Option String) : Option String :=
  match a with
  | some s => if s = "" then b else some s
  | none => b

/-- JS `s.trim()`: drop whitespace from both ends.  Defined over the
character list so it is structurally recursive (core `String.trim` uses
well-founded recursion on byte positions, which the kernel cannot
evaluate); agrees with JS `trim` on the ASCII whitespace involved here. -/
def jsTrim (s : String) : String :=
  ⟨((s.data.dropWhile Char.isWhitespace).reverse.dropWhile Char.isWhitespace).reverse⟩

/-- JS `s.toLowerCase()`, character by character (ASCII, as in the
identifiers this service handles). -/
def jsToLower (s : String) : String := ⟨s.data.map Char.toLower⟩

/-- JS `s.split(" ")[0]`: the chunk before the first space character. -/
def firstSpaceChunk (s : String) : String := ⟨s.data.takeWhile (fun c => c ≠ ' ')⟩

/-- Lower-case then trim, exactly as `x.toLowerCase().trim()`. -/
def normalizeId (s : String) : String := jsTrim (jsToLower s)

/-- Embedding of `sanitizeUser`: drops the `password` field. -/
def sanitizeUser (u : User) : SafeUser :=
  { id := u.id, username := u.username, email := u.email
    fullName := u.fullName, displayName := u.displayName
    bio := u.bio, location := u.location, roles := u.roles
    isEmailVerified := u.isEmailVerified
    createdAt := u.createdAt, updatedAt := u.updatedAt }

/-- One hour in milliseconds. -/
def hourMs : Nat := 3600000

/-- One day in milliseconds. -/
def dayMs : Nat := 86400000

/-- Embedding of `createEmailVerification(userId)`.  `freshId` and
`freshToken` stand for the generated row id and `crypto.randomUUID()`;
`sendOk` is whether the mailer call succeeds.  The send is wrapped in
try/catch and only logged, so the result never depends on `sendOk`. -/
def createEmailVerification (cfg : Config) (db : DB) (userId : String)
    (freshId freshToken : String) (now : Millis) (sendOk : Bool) :
    Except AppError Verification × DB :=
  let expiresAt := now + cfg.VERIFICATION_EXPIRY_HOURS * hourMs
  let remaining := db.verifications.filter (fun v =>
    !(decide (v.userId = userId ∧ v.vtype = VerificationType.EMAIL_VERIFICATION
        ∧ v.usedAt = none)))
  let verification : Verification :=
    { id := freshId, userId := userId, token := freshToken
      vtype := VerificationType.EMAIL_VERIFICATION
      expiresAt := expiresAt, usedAt := none }
  -- sendVerificationEmail failure is caught and logged, never rethrown
  (Except.ok verification, { db with verifications := remaining ++ [verification] })

/-- Embedding of `register(data)`.  `freshUserId`, `freshVerifId`,
`freshVerifToken` stand for the generated identifiers. -/
def register (cfg : Config) (bcrypt : Bcrypt) (db : DB)
    (freshUserId freshVerifId freshVerifToken : String) (now : Millis)
    (sendOk : Bool) (data : RegisterData) : Except AppError SafeUser × DB :=
  let normalizedEmail := normalizeId data.email
  let normalizedUsername := normalizeId data.username
  match db.users.find? (fun u =>
      decide (u.email = normalizedEmail ∨ u.username = normalizedUsername)) with
  | some existingUser =>
    if existingUser.email = normalizedEmail then
      (Except.error ⟨"Email already in use", 400, "EMAIL_EXISTS"⟩, db)
    else
      (Except.error ⟨"Username already taken", 400, "USERNAME_EXISTS"⟩, db)
  | none =>
    let hashedPassword := bcrypt.hash data.password cfg.BCRYPT_ROUNDS
    let user : User :=
      { id := freshUserId
        username := normalizedUsername
        email := normalizedEmail
        password := hashedPassword
        fullName := data.fullName.map jsTrim
        displayName := jsOrStr (jsOrOpt (data.displayName.map jsTrim)
          (data.fullName.map firstSpaceChunk)) normalizedUsername
        bio := none, location := none
        roles := [Role.USER]
        isEmailVerified := false
        createdAt := now, updatedAt := now }
    let db1 : DB := { db with users := db.users ++ [user] }
    let step := createEmailVerification cfg db1 user.id freshVerifId freshVerifToken now sendOk
    (Except.ok (sanitizeUser user), step.2)

/-- Embedding of `createSession(userId, sessionInfo)`.  `freshSessionId`,
`freshToken`, `freshCsrf` stand for the generated row id and the two
`generateSecureToken` calls. -/
def createSession (cfg : Config) (db : DB) (userId : String)
    (sessionInfo : SessionData) (freshSessionId freshToken freshCsrf : String)
    (now : Millis) : Session × DB :=
  let expiresAt := now + cfg.SESSION_EXPIRY_DAYS * dayMs
  let session : Session :=
    { id := freshSessionId, userId := userId, token := freshToken
      csrfSecret := freshCsrf, expiresAt := expiresAt
      ipAddress := sessionInfo.ipAddress, location := sessionInfo.location
      device := sessionInfo.device, userAgent := sessionInfo.userAgent
      createdAt := now }
  (session, { db with sessions := db.sessions ++ [session] })

/-- Embedding of `login(email, password, sessionInfo)`.  `geoResult` is
what the try/catch around `geoipService.getLocationInfo` produced
(`none` both when the lookup threw and when it is skipped for lack of
an ip address; the catch only logs). -/
def login (cfg : Config) (bcrypt : Bcrypt) (db : DB)
    (email password : String) (sessionInfo : SessionData)
    (geoResult : Option LocationInfo)
    (freshSessionId freshToken freshCsrf : String) (now : Millis) :
    Except AppError LoginResult × DB :=
  let normalizedEmail := normalizeId email
  match db.users.find? (fun u => decide (u.email = normalizedEmail)) with
  | none => (Except.error ⟨"Invalid email or password", 401, "INVALID_CREDENTIALS"⟩, db)
  | some user =>
    if !(bcrypt.compare password user.password) then
      (Except.error ⟨"Invalid email or password", 401, "INVALID_CREDENTIALS"⟩, db)
    else if !user.isEmailVerified then
      (Except.error ⟨"Please verify your email before signing in", 401,
        "EMAIL_NOT_VERIFIED"⟩, db)
    else
      let locationInfo := if jsTruthyOpt sessionInfo.ipAddress then geoResult else none
      let enhanced : SessionData := { sessionInfo with
        location := some (jsOrStr (locationInfo.map LocationInfo.formatted) "Unknown") }
      let step := createSession cfg db user.id enhanced freshSessionId freshToken freshCsrf now
      let db2 : DB := { step.2 with users := step.2.users.map (fun u =>
        if u.id = user.id then { u with updatedAt := now } else u) }
      (Except.ok { user := sanitizeUser user
                   session := { token := step.1.token, expiresAt := step.1.expiresAt }
                   locationInfo := locationInfo }, db2)

/-- Embedding of `validateSession(token)`. -/
def validateSession (db : DB) (token : String) (now : Millis) :
    Option (SafeUser × Session) × DB :=
  if token = "" then (none, db)
  else
    match db.sessions.find? (fun s => decide (s.token = token)) with
    | none => (none, db)
    | some session =>
      if session.expiresAt < now then
        -- delete the expired session, lazy expiry
        (none, { db with sessions :=
          db.sessions.filter (fun s => !(decide (s.id = session.id))) })
      else
        match db.users.find? (fun u => decide (u.id = session.userId)) with
        | none => (none, db)
        | some user =>
          if !user.isEmailVerified then (none, db)
          else (some (sanitizeUser user, session), db)

/-- Embedding of `verifyEmail(token)`.  The two writes of the
`prisma.$transaction` become one simultaneous state update. -/
def verifyEmail (db : DB) (token : String) (now : Millis) :
    Except AppError SafeUser × DB :=
  match db.verifications.find? (fun v => decide (v.token = token)) with
  | none => (Except.error ⟨"Invalid verification token", 400, "INVALID_TOKEN"⟩, db)
  | some verification =>
    if verification.usedAt.isSome then
      (Except.error ⟨"Verification token already used", 400, "TOKEN_ALREADY_USED"⟩, db)
    else if verification.expiresAt < now then
      (Except.error ⟨"Verification token expired", 400, "TOKEN_EXPIRED"⟩, db)
    else if verification.vtype ≠ VerificationType.EMAIL_VERIFICATION then
      (Except.error ⟨"Invalid token type", 400, "INVALID_TOKEN_TYPE"⟩, db)
    else
      match db.users.find? (fun u => decide (u.id = verification.userId)) with
      | none =>
        -- prisma.user.update throws when the row is missing (P2025)
        (Except.error ⟨"Record to update not found", 500, "P2025"⟩, db)
      | some user =>
        let updatedUser := { user with isEmailVerified := true, updatedAt := now }
        let db2 : DB := { db with
          users := db.users.map (fun u =>
            if u.id = verification.userId then { u with isEmailVerified := true, updatedAt := now } else u)
          verifications := db.verifications.map (fun v =>
            if v.id = verification.id then { v with usedAt := some now } else v) }
        -- sendWelcomeEmail failure is caught and logged, never rethrown
        (Except.ok (sanitizeUser updatedUser), db2)

/-- Embedding of `requestPasswordReset(email)`.  `sendOk` is whether
`sendPasswordResetEmail` succeeds; on a send failure the method logs
and then rethrows `EMAIL_SEND_FAILED`, after the token row was already
written (there is no transaction around these steps). -/
def requestPasswordReset (db : DB) (email : String)
    (freshId freshToken : String) (now : Millis) (sendOk : Bool) :
    Except AppError Unit × DB :=
  let normalizedEmail := normalizeId email
  match db.users.find? (fun u => decide (u.email = normalizedEmail)) with
  | none => (Except.ok (), db)  -- do not reveal whether the email exists
  | some user =>
    let expiresAt := now + hourMs  -- 1 hour expiry
    let remaining := db.verifications.filter (fun v =>
      !(decide (v.userId = user.id ∧ v.vtype = VerificationType.PASSWORD_RESET
          ∧ v.usedAt = none)))
    let verification : Verification :=
      { id := freshId, userId := user.id, token := freshToken
        vtype := VerificationType.PASSWORD_RESET
        expiresAt := expiresAt, usedAt := none }
    let db1 : DB := { db with verifications := remaining ++ [verification] }
    if sendOk then (Except.ok (), db1)
    else (Except.error ⟨"Failed to send password reset email", 500, "EMAIL_SEND_FAILED"⟩, db1)

/-- Embedding of `resetPassword(token, newPassword)`.  The three writes
of the `prisma.$transaction` become one simultaneous state update. -/
def resetPassword (cfg : Config) (bcrypt : Bcrypt) (db : DB)
    (token newPassword : String) (now : Millis) :
    Except AppError SafeUser × DB :=
  match db.verifications.find? (fun v => decide (v.token = token)) with
  | none => (Except.error ⟨"Invalid reset token", 400, "INVALID_TOKEN"⟩, db)
  | some verification =>
    if verification.usedAt.isSome then
      (Except.error ⟨"Reset token already used", 400, "TOKEN_ALREADY_USED"⟩, db)
    else if verification.expiresAt < now then
      (Except.error ⟨"Reset token expired", 400, "TOKEN_EXPIRED"⟩, db)
    else if verification.vtype ≠ VerificationType.PASSWORD_RESET then
      (Except.error ⟨"Invalid token type", 400, "INVALID_TOKEN_TYPE"⟩, db)
    else
      match db.users.find? (fun u => decide (u.id = verification.userId)) with
      | none => (Except.error ⟨"Record to update not found", 500, "P2025"⟩, db)
      | some user =>
        let hashedPassword := bcrypt.hash newPassword cfg.BCRYPT_ROUNDS
        let updatedUser := { user with password := hashedPassword, updatedAt := now }
        let db2 : DB := { db with
          users := db.users.map (fun u =>
            if u.id = verification.userId then { u with password := hashedPassword, updatedAt := now } else u)
          verifications := db.verifications.map (fun v =>
            if v.id = verification.id then { v with usedAt := some now } else v)
          -- logout all sessions for security
          sessions := db.sessions.filter (fun s => !(decide (s.userId = verification.userId))) }
        (Except.ok (sanitizeUser updatedUser), db2)

/-- Embedding of `changePassword(userId, currentPassword, newPassword,
keepCurrentSession, currentSessionId)`. -/
def changePassword (cfg : Config) (bcrypt : Bcrypt) (db : DB)
    (userId currentPassword newPassword : String)
    (keepCurrentSession : Bool) (currentSessionId : Option String)
    (now : Millis) : Except AppError Unit × DB :=
  match db.users.find? (fun u => decide (u.id = userId)) with
  | none => (Except.error ⟨"User not found", 404, "USER_NOT_FOUND"⟩, db)
  | some user =>
    if !(bcrypt.compare currentPassword user.password) then
      (Except.error ⟨"Current password is incorrect", 400, "INVALID_PASSWORD"⟩, db)
    else
      let hashedPassword := bcrypt.hash newPassword cfg.BCRYPT_ROUNDS
      -- `keepCurrentSession && currentSessionId ? { not: currentSessionId } : undefined`
      let keepFilter : Session → Bool := fun s =>
        if keepCurrentSession && jsTruthyOpt currentSessionId then
          !(decide (s.userId = userId) && !(decide (some s.id = currentSessionId)))
        else
          !(decide (s.userId = userId))
      let db2 : DB := { db with
        users := db.users.map (fun u =>
          if u.id = userId then { u with password := hashedPassword, updatedAt := now } else u)
        sessions := db.sessions.filter keepFilter }
      (Except.ok (), db2)

/-- Input of `updateProfile`: an absent field is an absent key. -/
structure ProfileUpdates where
  username : Option String := none
  displayName : Option String := none
  fullName : Option String := none
  bio : Option String := none
  location : Option String := none
  deriving DecidableEq, Repr

/-- Embedding of `updateProfile(userId, updates)`. -/
def updateProfile (db : DB) (userId : String) (updates : ProfileUpdates)
    (now : Millis) : Except AppError SafeUser × DB :=
  let checked :=
    if jsTruthyOpt updates.username then
      let normalizedUsername := normalizeId (updates.username.getD "")
      match db.users.find? (fun u =>
          decide (u.username = normalizedUsername ∧ u.id ≠ userId)) with
      | some _ => Except.error (⟨"Username already taken", 400, "USERNAME_EXISTS"⟩ : AppError)
      | none => Except.ok { updates with username := some normalizedUsername }
    else Except.ok updates
  match checked with
  | Except.error e => (Except.error e, db)
  | Except.ok upd =>
    -- trim every string field that is present
    let cleaned : ProfileUpdates :=
      { username := upd.username.map jsTrim
        displayName := upd.displayName.map jsTrim
        fullName := upd.fullName.map jsTrim
        bio := upd.bio.map jsTrim
        location := upd.location.map jsTrim }
    match db.users.find? (fun u => decide (u.id = userId)) with
    | none => (Except.error ⟨"Record to update not found", 500, "P2025"⟩, db)
    | some user =>
      let updatedUser : User :=
        { user with
          username := cleaned.username.getD user.username
          displayName := cleaned.displayName.getD user.displayName
          fullName := match cleaned.fullName with
            | some s => some s
            | none => user.fullName
          bio := match cleaned.bio with
            | some s => some s
            | none => user.bio
          location := match cleaned.location with
            | some s => some s
            | none => user.location
          updatedAt := now }
      let db2 : DB := { db with
        users := db.users.map (fun u => if u.id = userId then updatedUser else u) }
      (Except.ok (sanitizeUser updatedUser), db2)

/-- Embedding of `getUserById(userId)`. -/
def getUserById (db : DB) (userId : String) : Option SafeUser :=
  (db.users.find? (fun u => decide (u.id = userId))).map sanitizeUser

/-- Embedding of `getUserByUsername(username)`. -/
def getUserByUsername (db : DB) (username : String) : Option SafeUser :=
  (db.users.find? (fun u => decide (u.username = normalizeId username))).map sanitizeUser

/-- Embedding of `getUserByEmail(email)`. -/
def getUserByEmail (db : DB) (email : String) : Option SafeUser :=
  (db.users.find? (fun u => decide (u.email = normalizeId email))).map sanitizeUser

/-- Embedding of `addRole(userId, role)`. -/
def addRole (db : DB) (userId : String) (role : Role) (now : Millis) :
    Except AppError SafeUser × DB :=
  match db.users.find? (fun u => decide (u.id = userId)) with
  | none => (Except.error ⟨"User not found", 404, "USER_NOT_FOUND"⟩, db)
  | some user =>
    if user.roles.contains role then (Except.ok (sanitizeUser user), db)
    else
      let updatedUser := { user with roles := user.roles ++ [role], updatedAt := now }
      let db2 : DB := { db with
        users := db.users.map (fun u => if u.id = userId then updatedUser else u) }
      (Except.ok (sanitizeUser updatedUser), db2)

/-- Embedding of `removeRole(userId, role)`. -/
def removeRole (db : DB) (userId : String) (role : Role) (now : Millis) :
    Except AppError SafeUser × DB :=
  match db.users.find? (fun u => decide (u.id = userId)) with
  | none => (Except.error ⟨"User not found", 404, "USER_NOT_FOUND"⟩, db)
  | some user =>
    let updatedUser := { user with
      roles := user.roles.filter (fun r => !(decide (r = role))), updatedAt := now }
    let db2 : DB := { db with
      users := db.users.map (fun u => if u.id = userId then updatedUser else u) }
    (Except.ok (sanitizeUser updatedUser), db2)

/-! Concrete fixtures used by the witness and counterexample theorems. -/

/-- A concrete stand-in for the bcrypt collaborator. -/
def bcrypt0 : Bcrypt := ⟨fun p _ => "H" ++ p, fun p h => h == "H" ++ p⟩

/-- Default configuration values. -/
def cfg0 : Config := {}

/-- A verified user fixture. -/
def userA : User :=
  { id := "u1", username := "alice", email := "alice@example.com"
    password := "Hpw", fullName := none, displayName := "alice"
    bio := none, location := none, roles := [Role.USER]
    isEmailVerified := true, createdAt := 0, updatedAt := 0 }

/-- A second verified user fixture. -/
def userB : User :=
  { id := "u2", username := "bob", email := "bob@example.com"
    password := "Hpw2", fullName := none, displayName := "bob"
    bio := none, location := none, roles := [Role.USER]
    isEmailVerified := true, createdAt := 0, updatedAt := 0 }

/-- A session fixture owned by `userA`. -/
def sessA1 : Session :=
  { id := "s1", userId := "u1", token := "stok1", csrfSecret := "c1"
    expiresAt := 1000, ipAddress := none, location := none
    device := none, userAgent := none, createdAt := 0 }

/-- A second session fixture owned by `userA`. -/
def sessA2 : Session := { sessA1 with id := "s2", token := "stok2" }

/-- A session fixture owned by `userB`. -/
def sessB1 : Session := { sessA1 with id := "s3", token := "stok3", userId := "u2" }

/-- An unused PASSWORD_RESET token fixture for `userA`. -/
def verifReset : Verification :=
  { id := "v1", userId := "u1", token := "tok", vtype := VerificationType.PASSWORD_RESET
    expiresAt := 100, usedAt := none }

/-- Fixture database for the password-reset scenarios. -/
def dbC1 : DB := ⟨[userA], [sessA1, sessA2], [verifReset]⟩

/-! Helper lemmas about lists shared by several proofs. -/

/-- Filtering by a predicate after keeping only its complement gives nothing. -/
theorem filter_not_filter_self {α : Type} (p : α → Bool) (l : List α) :
    (l.filter (fun a => !(p a))).filter p = [] := by
  induction l with
  | nil => rfl
  | cons a t ih =>
    by_cases h : p a
    · simp [List.filter_cons, h, ih]
    · simp [List.filter_cons, h, ih]

/-- C1: a successful `resetPassword(token, newPassword)` call, in its single
transaction, updates the owning user's password hash, marks the claimed token
used, and deletes the sessions of the token's owning user, leaving zero
sessions for that user no matter how many existed before. -/
theorem resetPassword_revokes_all_sessions
    (cfg : Config) (bcrypt : Bcrypt) (db : DB) (token newPassword : String)
    (now : Millis) (su : SafeUser) (db' : DB) (v : Verification)
    (hv : db.verifications.find? (fun w => decide (w.token = token)) = some v)
    (h : resetPassword cfg bcrypt db token newPassword now = (Except.ok su, db')) :
    db'.sessions = db.sessions.filter (fun s => !(decide (s.userId = v.userId))) ∧
    db'.sessions.filter (fun s => decide (s.userId = v.userId)) = [] ∧
    (∀ u ∈ db'.users, u.id = v.userId →
      u.password = bcrypt.hash newPassword cfg.BCRYPT_ROUNDS) ∧
    (∀ w ∈ db'.verifications, w.id = v.id → w.usedAt = some now) := by
  simp only [resetPassword, hv] at h
  split at h
  · simp at h
  · split at h
    · simp at h
    · split at h
      · simp at h
      · split at h
        · simp at h
        · simp only [Prod.mk.injEq, Except.ok.injEq] at h
          obtain ⟨hsu, hdb⟩ := h
          subst hdb
          refine ⟨rfl, filter_not_filter_self _ _, ?_, ?_⟩
          · intro u hu hid
            obtain ⟨x, hx, rfl⟩ := List.mem_map.1 hu
            by_cases hxid : x.id = v.userId
            · simp [hxid]
            · simp only [if_neg hxid] at hid ⊢
              exact absurd hid hxid
          · intro w hw hid
            obtain ⟨x, hx, rfl⟩ := List.mem_map.1 hw
            by_cases hxid : x.id = v.id
            · simp [hxid]
            · simp only [if_neg hxid] at hid ⊢
              exact absurd hid hxid

/-- Two stacked filters collapse to one with the pointwise conjunction. -/
theorem filter_filter_eq {α : Type} (p q r : α → Bool) (l : List α)
    (h : ∀ a, (p a && q a) = r a) : (l.filter q).filter p = l.filter r := by
  rw [List.filter_filter]
  exact List.filter_congr (fun a _ => h a)

/-- Finding a verification by token value commutes with a token-preserving
rewrite of the rows. -/
theorem find?_token_map (l : List Verification) (token : String)
    (f : Verification → Verification) (hf : ∀ x, (f x).token = x.token) :
    (l.map f).find? (fun w => decide (w.token = token)) =
    (l.find? (fun w => decide (w.token = token))).map f := by
  rw [List.find?_map]
  have hp : ((fun w => decide (w.token = token)) ∘ f) =
      (fun w => decide (w.token = token)) := by
    funext x
    simp [Function.comp, hf]
  rw [hp]

/-- Witness for C1 at a concrete database with two live sessions. -/
theorem resetPassword_revokes_all_sessions_witness :
    ∃ su db', resetPassword cfg0 bcrypt0 dbC1 "tok" "np" 50 = (Except.ok su, db') ∧
      db'.sessions.filter (fun s => decide (s.userId = "u1")) = [] := by
  obtain ⟨su, db', h⟩ :
      ∃ su db', resetPassword cfg0 bcrypt0 dbC1 "tok" "np" 50 = (Except.ok su, db') :=
    ⟨_, _, rfl⟩
  refine ⟨su, db', h, ?_⟩
  exact (resetPassword_revokes_all_sessions cfg0 bcrypt0 dbC1 "tok" "np" 50 su db'
    verifReset (by decide) h).2.1

/-- A used EMAIL_VERIFICATION token fixture. -/
def verifUsed : Verification :=
  { id := "v2", userId := "u1", token := "used"
    vtype := VerificationType.EMAIL_VERIFICATION, expiresAt := 100, usedAt := some 5 }

/-- An expired EMAIL_VERIFICATION token fixture. -/
def verifExpired : Verification :=
  { id := "v3", userId := "u1", token := "expired"
    vtype := VerificationType.EMAIL_VERIFICATION, expiresAt := 10, usedAt := none }

/-- An unused PASSWORD_RESET token fixture presented for email verification. -/
def verifWrongType : Verification :=
  { id := "v4", userId := "u1", token := "wrongtype"
    vtype := VerificationType.PASSWORD_RESET, expiresAt := 100, usedAt := none }

/-- An unused EMAIL_VERIFICATION token fixture presented for password reset. -/
def verifWrongType2 : Verification :=
  { id := "v5", userId := "u1", token := "wrongtype2"
    vtype := VerificationType.EMAIL_VERIFICATION, expiresAt := 100, usedAt := none }

/-- A claimable EMAIL_VERIFICATION token fixture. -/
def verifFresh : Verification :=
  { id := "v6", userId := "u1", token := "fresh"
    vtype := VerificationType.EMAIL_VERIFICATION, expiresAt := 100, usedAt := none }

/-- Fixture database exercising every token-claim branch. -/
def dbC2 : DB :=
  ⟨[userA], [], [verifUsed, verifExpired, verifWrongType, verifWrongType2, verifFresh]⟩

/-- C2: claiming a verification or reset token fails with `INVALID_TOKEN`
when no record matches the token value, `TOKEN_ALREADY_USED` when `usedAt`
is set, `TOKEN_EXPIRED` when past expiry, `INVALID_TOKEN_TYPE` when the
type differs from the one the operation expects; a successful claim marks
the token used, so a second claim of the same token fails
`TOKEN_ALREADY_USED`. -/
theorem token_claim_checks_and_single_use
    (cfg : Config) (bcrypt : Bcrypt) (db : DB) (token newPassword : String)
    (now later : Millis) :
    (db.verifications.find? (fun w => decide (w.token = token)) = none →
      (verifyEmail db token now).1 =
        Except.error ⟨"Invalid verification token", 400, "INVALID_TOKEN"⟩ ∧
      (resetPassword cfg bcrypt db token newPassword now).1 =
        Except.error ⟨"Invalid reset token", 400, "INVALID_TOKEN"⟩) ∧
    (∀ v, db.verifications.find? (fun w => decide (w.token = token)) = some v →
      v.usedAt.isSome →
      (verifyEmail db token now).1 =
        Except.error ⟨"Verification token already used", 400, "TOKEN_ALREADY_USED"⟩ ∧
      (resetPassword cfg bcrypt db token newPassword now).1 =
        Except.error ⟨"Reset token already used", 400, "TOKEN_ALREADY_USED"⟩) ∧
    (∀ v, db.verifications.find? (fun w => decide (w.token = token)) = some v →
      v.usedAt = none → v.expiresAt < now →
      (verifyEmail db token now).1 =
        Except.error ⟨"Verification token expired", 400, "TOKEN_EXPIRED"⟩ ∧
      (resetPassword cfg bcrypt db token newPassword now).1 =
        Except.error ⟨"Reset token expired", 400, "TOKEN_EXPIRED"⟩) ∧
    (∀ v, db.verifications.find? (fun w => decide (w.token = token)) = some v →
      v.usedAt = none → ¬ v.expiresAt < now →
      (v.vtype ≠ VerificationType.EMAIL_VERIFICATION →
        (verifyEmail db token now).1 =
          Except.error ⟨"Invalid token type", 400, "INVALID_TOKEN_TYPE"⟩) ∧
      (v.vtype ≠ VerificationType.PASSWORD_RESET →
        (resetPassword cfg bcrypt db token newPassword now).1 =
          Except.error ⟨"Invalid token type", 400, "INVALID_TOKEN_TYPE"⟩)) ∧
    (∀ su db', verifyEmail db token now = (Except.ok su, db') →
      (verifyEmail db' token later).1 =
        Except.error ⟨"Verification token already used", 400, "TOKEN_ALREADY_USED"⟩) ∧
    (∀ su db', resetPassword cfg bcrypt db token newPassword now = (Except.ok su, db') →
      (resetPassword cfg bcrypt db' token newPassword later).1 =
        Except.error ⟨"Reset token already used", 400, "TOKEN_ALREADY_USED"⟩) := by
  refine ⟨?_, ?_, ?_, ?_, ?_, ?_⟩
  · intro hnone
    constructor <;> simp [verifyEmail, resetPassword, hnone]
  · intro v hv hused
    constructor <;> simp [verifyEmail, resetPassword, hv, hused]
  · intro v hv hused hexp
    constructor <;> simp [verifyEmail, resetPassword, hv, hused, hexp]
  · intro v hv hused hexp
    constructor <;> intro htype <;>
      simp [verifyEmail, resetPassword, hv, hused, hexp, htype]
  · intro su db' hsucc
    simp only [verifyEmail] at hsucc
    split at hsucc
    · simp at hsucc
    next v hfind =>
      split at hsucc
      · simp at hsucc
      · split at hsucc
        · simp at hsucc
        · split at hsucc
          · simp at hsucc
          · split at hsucc
            · simp at hsucc
            next user huser =>
              simp only [Prod.mk.injEq, Except.ok.injEq] at hsucc
              obtain ⟨hsu, hdb⟩ := hsucc
              subst hdb
              simp only [verifyEmail]
              rw [find?_token_map _ _ _
                (by intro x; by_cases hx : x.id = v.id <;> simp [hx]), hfind]
              simp
  · intro su db' hsucc
    simp only [resetPassword] at hsucc
    split at hsucc
    · simp at hsucc
    next v hfind =>
      split at hsucc
      · simp at hsucc
      · split at hsucc
        · simp at hsucc
        · split at hsucc
          · simp at hsucc
          · split at hsucc
            · simp at hsucc
            next user huser =>
              simp only [Prod.mk.injEq, Except.ok.injEq] at hsucc
              obtain ⟨hsu, hdb⟩ := hsucc
              subst hdb
              simp only [resetPassword]
              rw [find?_token_map _ _ _
                (by intro x; by_cases hx : x.id = v.id <;> simp [hx]), hfind]
              simp

/-- Witness for C2: every branch exercised at a concrete database. -/
theorem token_claim_checks_and_single_use_witness :
    (verifyEmail dbC2 "missing" 50).1 =
      Except.error ⟨"Invalid verification token", 400, "INVALID_TOKEN"⟩ ∧
    (verifyEmail dbC2 "used" 50).1 =
      Except.error ⟨"Verification token already used", 400, "TOKEN_ALREADY_USED"⟩ ∧
    (resetPassword cfg0 bcrypt0 dbC2 "used" "np" 50).1 =
      Except.error ⟨"Reset token already used", 400, "TOKEN_ALREADY_USED"⟩ ∧
    (verifyEmail dbC2 "expired" 50).1 =
      Except.error ⟨"Verification token expired", 400, "TOKEN_EXPIRED"⟩ ∧
    (verifyEmail dbC2 "wrongtype" 50).1 =
      Except.error ⟨"Invalid token type", 400, "INVALID_TOKEN_TYPE"⟩ ∧
    (resetPassword cfg0 bcrypt0 dbC2 "wrongtype2" "np" 50).1 =
      Except.error ⟨"Invalid token type", 400, "INVALID_TOKEN_TYPE"⟩ ∧
    (verifyEmail (verifyEmail dbC2 "fresh" 50).2 "fresh" 60).1 =
      Except.error ⟨"Verification token already used", 400, "TOKEN_ALREADY_USED"⟩ := by
  have T := fun tok =>
    token_claim_checks_and_single_use cfg0 bcrypt0 dbC2 tok "np" 50 60
  refine ⟨((T "missing").1 (by decide)).1,
    ((T "used").2.1 verifUsed (by decide) (by decide)).1,
    ((T "used").2.1 verifUsed (by decide) (by decide)).2,
    ((T "expired").2.2.1 verifExpired (by decide) (by decide) (by decide)).1,
    ((T "wrongtype").2.2.2.1 verifWrongType (by decide) (by decide) (by decide)).1
      (by decide),
    ((T "wrongtype2").2.2.2.1 verifWrongType2 (by decide) (by decide) (by decide)).2
      (by decide), ?_⟩
  obtain ⟨su, db', hsucc⟩ :
      ∃ su db', verifyEmail dbC2 "fresh" 50 = (Except.ok su, db') := ⟨_, _, rfl⟩
  rw [hsucc]
  exact (T "fresh").2.2.2.2.1 su db' hsucc

/-- An unverified user fixture. -/
def userUnv : User :=
  { id := "u3", username := "carol", email := "carol@example.com"
    password := "Hpw3", fullName := none, displayName := "carol"
    bio := none, location := none, roles := [Role.USER]
    isEmailVerified := false, createdAt := 0, updatedAt := 0 }

/-- An expired session fixture owned by `userA`. -/
def sessExp : Session := { sessA1 with id := "sE", token := "stokE", expiresAt := 10 }

/-- A live session fixture owned by the unverified `userUnv`. -/
def sessUnv : Session := { sessA1 with id := "sU", token := "stokU", userId := "u3" }

/-- Fixture database for session-validation scenarios. -/
def dbC3 : DB := ⟨[userA, userUnv], [sessA1, sessExp, sessUnv], []⟩

/-- C3 counterexample: the claim says a session with `expiresAt <= now` is
deleted and rejected, but the source tests `session.expiresAt < new Date()`
strictly, so at `expiresAt = now` the session is accepted and kept. -/
theorem validateSession_boundary_counterexample :
    sessA1.expiresAt ≤ 1000 ∧
    (validateSession dbC1 "stok1" 1000).1 = some (sanitizeUser userA, sessA1) ∧
    (validateSession dbC1 "stok1" 1000).2 = dbC1 := by decide

/-- C3 (amended): `validateSession` returns `none` on a missing session;
deletes the row and returns `none` iff `expiresAt < now` strictly (a
session with `expiresAt = now` is still accepted), with the deleted row
absent from the store immediately after; returns `none` when the owning
user is unverified; otherwise returns the sanitized user and session. -/
theorem validateSession_semantics (db : DB) (token : String) (now : Millis) :
    (token = "" → validateSession db token now = (none, db)) ∧
    (token ≠ "" → db.sessions.find? (fun s => decide (s.token = token)) = none →
      validateSession db token now = (none, db)) ∧
    (∀ s, token ≠ "" →
      db.sessions.find? (fun t => decide (t.token = token)) = some s →
      s.expiresAt < now →
      validateSession db token now =
        (none, { db with
          sessions := db.sessions.filter (fun t => !(decide (t.id = s.id))) }) ∧
      (validateSession db token now).2.sessions.find?
        (fun t => decide (t.id = s.id)) = none) ∧
    (∀ s u, token ≠ "" →
      db.sessions.find? (fun t => decide (t.token = token)) = some s →
      ¬ s.expiresAt < now →
      db.users.find? (fun x => decide (x.id = s.userId)) = some u →
      (u.isEmailVerified = false → validateSession db token now = (none, db)) ∧
      (u.isEmailVerified = true →
        validateSession db token now = (some (sanitizeUser u, s), db))) := by
  refine ⟨?_, ?_, ?_, ?_⟩
  · intro h
    simp [validateSession, h]
  · intro h hnone
    simp [validateSession, h, hnone]
  · intro s h hfind hexp
    have heq : validateSession db token now =
        (none, { db with
          sessions := db.sessions.filter (fun t => !(decide (t.id = s.id))) }) := by
      simp [validateSession, h, hfind, hexp]
    refine ⟨heq, ?_⟩
    rw [heq, List.find?_eq_none]
    intro x hx
    have hmem := List.mem_filter.1 hx
    simpa using hmem.2
  · intro s u h hfind hexp huser
    constructor
    · intro hver
      simp [validateSession, h, hfind, hexp, huser, hver]
    · intro hver
      simp [validateSession, h, hfind, hexp, huser, hver]

/-- Witness for C3 (amended) exercising every branch concretely. -/
theorem validateSession_semantics_witness :
    validateSession dbC3 "" 50 = (none, dbC3) ∧
    validateSession dbC3 "missing" 50 = (none, dbC3) ∧
    (validateSession dbC3 "stokE" 50).1 = none ∧
    (validateSession dbC3 "stokE" 50).2.sessions.find?
      (fun t => decide (t.id = "sE")) = none ∧
    validateSession dbC3 "stokU" 50 = (none, dbC3) ∧
    validateSession dbC3 "stok1" 50 = (some (sanitizeUser userA, sessA1), dbC3) := by
  have T := validateSession_semantics dbC3
  refine ⟨(T "" 50).1 rfl,
    (T "missing" 50).2.1 (by decide) (by decide), ?_, ?_,
    ((T "stokU" 50).2.2.2 sessUnv userUnv (by decide) (by decide) (by decide)
      (by decide)).1 (by decide),
    ((T "stok1" 50).2.2.2 sessA1 userA (by decide) (by decide) (by decide)
      (by decide)).2 (by decide)⟩
  · rw [((T "stokE" 50).2.2.1 sessExp (by decide) (by decide) (by decide)).1]
  · exact ((T "stokE" 50).2.2.1 sessExp (by decide) (by decide) (by decide)).2

/-- C4: `login` succeeds iff a user exists with the normalized email, the
password matches the stored hash, and the email is verified; an unknown
email and a wrong password both fail with the identical generic
`INVALID_CREDENTIALS` error, and a matching but unverified account fails
`EMAIL_NOT_VERIFIED`. -/
theorem login_outcomes
    (cfg : Config) (bcrypt : Bcrypt) (db : DB) (email password : String)
    (info : SessionData) (geo : Option LocationInfo)
    (sid stok csrf : String) (now : Millis) :
    (db.users.find? (fun u => decide (u.email = normalizeId email)) = none →
      login cfg bcrypt db email password info geo sid stok csrf now =
        (Except.error ⟨"Invalid email or password", 401, "INVALID_CREDENTIALS"⟩, db)) ∧
    (∀ u, db.users.find? (fun u => decide (u.email = normalizeId email)) = some u →
      bcrypt.compare password u.password = false →
      login cfg bcrypt db email password info geo sid stok csrf now =
        (Except.error ⟨"Invalid email or password", 401, "INVALID_CREDENTIALS"⟩, db)) ∧
    (∀ u, db.users.find? (fun u => decide (u.email = normalizeId email)) = some u →
      bcrypt.compare password u.password = true → u.isEmailVerified = false →
      login cfg bcrypt db email password info geo sid stok csrf now =
        (Except.error ⟨"Please verify your email before signing in", 401,
          "EMAIL_NOT_VERIFIED"⟩, db)) ∧
    (∀ u, db.users.find? (fun u => decide (u.email = normalizeId email)) = some u →
      bcrypt.compare password u.password = true → u.isEmailVerified = true →
      ∃ r, (login cfg bcrypt db email password info geo sid stok csrf now).1 =
        Except.ok r ∧ r.user = sanitizeUser u) := by
  refine ⟨?_, ?_, ?_, ?_⟩
  · intro hnone
    simp [login, hnone]
  · intro u hu hcmp
    simp [login, hu, hcmp]
  · intro u hu hcmp hver
    simp [login, hu, hcmp, hver]
  · intro u hu hcmp hver
    refine ⟨{ user := sanitizeUser u
              session := { token := stok
                           expiresAt := now + cfg.SESSION_EXPIRY_DAYS * dayMs }
              locationInfo := if jsTruthyOpt info.ipAddress then geo else none },
      ?_, rfl⟩
    simp [login, createSession, hu, hcmp, hver]

/-- Witness for C4 exercising the four outcomes concretely. -/
theorem login_outcomes_witness :
    login cfg0 bcrypt0 dbC3 "nosuch@example.com" "pw" {} none "s9" "t9" "c9" 50 =
      (Except.error ⟨"Invalid email or password", 401, "INVALID_CREDENTIALS"⟩, dbC3) ∧
    login cfg0 bcrypt0 dbC3 " Alice@Example.Com " "wrong" {} none "s9" "t9" "c9" 50 =
      (Except.error ⟨"Invalid email or password", 401, "INVALID_CREDENTIALS"⟩, dbC3) ∧
    login cfg0 bcrypt0 dbC3 "carol@example.com" "pw3" {} none "s9" "t9" "c9" 50 =
      (Except.error ⟨"Please verify your email before signing in", 401,
        "EMAIL_NOT_VERIFIED"⟩, dbC3) ∧
    ∃ r, (login cfg0 bcrypt0 dbC3 " Alice@Example.Com " "pw" {} none
      "s9" "t9" "c9" 50).1 = Except.ok r ∧ r.user = sanitizeUser userA := by
  refine ⟨?_, ?_, ?_, ?_⟩
  · exact (login_outcomes cfg0 bcrypt0 dbC3 "nosuch@example.com" "pw" {} none
      "s9" "t9" "c9" 50).1 (by decide)
  · exact (login_outcomes cfg0 bcrypt0 dbC3 " Alice@Example.Com " "wrong" {} none
      "s9" "t9" "c9" 50).2.1 userA (by decide) (by decide)
  · exact (login_outcomes cfg0 bcrypt0 dbC3 "carol@example.com" "pw3" {} none
      "s9" "t9" "c9" 50).2.2.1 userUnv (by decide) (by decide) (by decide)
  · exact (login_outcomes cfg0 bcrypt0 dbC3 " Alice@Example.Com " "pw" {} none
      "s9" "t9" "c9" 50).2.2.2 userA (by decide) (by decide) (by decide)

/-- C5 counterexample: the claim says a failing notification email never
fails token issuance, but `requestPasswordReset` rethrows as
`EMAIL_SEND_FAILED` when the reset email cannot be sent
(auth.service.ts:403). -/
theorem requestPasswordReset_send_failure_counterexample :
    (requestPasswordReset dbC1 "alice@example.com" "nv" "ntk" 10 false).1 =
      Except.error ⟨"Failed to send password reset email", 500, "EMAIL_SEND_FAILED"⟩ := by
  rfl

/-- C5 (amended): `createEmailVerification` always completes with the token
created regardless of whether the verification email send throws; by
contrast `requestPasswordReset` fails with `EMAIL_SEND_FAILED` when the
reset email send throws, although the reset token row has already been
created and remains in the store. -/
theorem issuance_email_dispatch
    (cfg : Config) (db : DB) (userId vid vtk email : String) (now : Millis) :
    (∀ sendOk, (createEmailVerification cfg db userId vid vtk now sendOk).1 =
      Except.ok { id := vid, userId := userId, token := vtk
                  vtype := VerificationType.EMAIL_VERIFICATION
                  expiresAt := now + cfg.VERIFICATION_EXPIRY_HOURS * hourMs
                  usedAt := none }) ∧
    (∀ u, db.users.find? (fun x => decide (x.email = normalizeId email)) = some u →
      ∀ sendOk,
        (requestPasswordReset db email vid vtk now sendOk).1 =
          (if sendOk then Except.ok ()
           else Except.error ⟨"Failed to send password reset email", 500,
             "EMAIL_SEND_FAILED"⟩) ∧
        ({ id := vid, userId := u.id, token := vtk
           vtype := VerificationType.PASSWORD_RESET
           expiresAt := now + hourMs, usedAt := none } : Verification) ∈
          (requestPasswordReset db email vid vtk now sendOk).2.verifications) := by
  constructor
  · intro sendOk
    simp [createEmailVerification]
  · intro u hu sendOk
    constructor
    · cases sendOk <;> simp [requestPasswordReset, hu]
    · cases sendOk <;> simp [requestPasswordReset, hu]

/-- Witness for C5 (amended) at a concrete database. -/
theorem issuance_email_dispatch_witness :
    (createEmailVerification cfg0 dbC1 "u1" "nv" "ntk" 10 false).1 =
      Except.ok { id := "nv", userId := "u1", token := "ntk"
                  vtype := VerificationType.EMAIL_VERIFICATION
                  expiresAt := 10 + 24 * hourMs, usedAt := none } ∧
    (requestPasswordReset dbC1 "alice@example.com" "nv" "ntk" 10 false).1 =
      Except.error ⟨"Failed to send password reset email", 500,
        "EMAIL_SEND_FAILED"⟩ ∧
    ({ id := "nv", userId := "u1", token := "ntk"
       vtype := VerificationType.PASSWORD_RESET
       expiresAt := 10 + hourMs, usedAt := none } : Verification) ∈
      (requestPasswordReset dbC1 "alice@example.com" "nv" "ntk" 10 false).2.verifications := by
  have T := issuance_email_dispatch cfg0 dbC1 "u1" "nv" "ntk" "alice@example.com" 10
  exact ⟨T.1 false, (T.2 userA (by decide) false).1, (T.2 userA (by decide) false).2⟩

/-- C6: for either token type, issuing a token twice for the same user
leaves exactly one unused token of that type for that user (the second
one), and claiming the first token afterwards fails `INVALID_TOKEN`
(token not found), because issuing first deletes all prior unused tokens
of that type.  EMAIL_VERIFICATION issuance is `createEmailVerification`,
PASSWORD_RESET issuance is `requestPasswordReset`; the latter is claimed
through `resetPassword`. -/
theorem issue_twice_single_unused
    (cfg : Config) (bcrypt : Bcrypt) (db : DB) (uid email : String) (u : User)
    (id1 id2 t1 t2 newPassword : String)
    (now1 now2 now3 : Millis) (sendOk1 sendOk2 : Bool)
    (hu : db.users.find? (fun x => decide (x.email = normalizeId email)) = some u)
    (hfresh : ∀ v ∈ db.verifications, v.token ≠ t1)
    (hne : t1 ≠ t2) :
    ((createEmailVerification cfg
        (createEmailVerification cfg db uid id1 t1 now1 sendOk1).2
        uid id2 t2 now2 sendOk2).2.verifications.filter (fun v =>
          decide (v.userId = uid ∧ v.vtype = VerificationType.EMAIL_VERIFICATION
            ∧ v.usedAt = none))) =
      [{ id := id2, userId := uid, token := t2
         vtype := VerificationType.EMAIL_VERIFICATION
         expiresAt := now2 + cfg.VERIFICATION_EXPIRY_HOURS * hourMs
         usedAt := none }] ∧
    (verifyEmail (createEmailVerification cfg
        (createEmailVerification cfg db uid id1 t1 now1 sendOk1).2
        uid id2 t2 now2 sendOk2).2 t1 now3).1 =
      Except.error ⟨"Invalid verification token", 400, "INVALID_TOKEN"⟩ ∧
    ((requestPasswordReset (requestPasswordReset db email id1 t1 now1 sendOk1).2
        email id2 t2 now2 sendOk2).2.verifications.filter (fun v =>
          decide (v.userId = u.id ∧ v.vtype = VerificationType.PASSWORD_RESET
            ∧ v.usedAt = none))) =
      [{ id := id2, userId := u.id, token := t2
         vtype := VerificationType.PASSWORD_RESET
         expiresAt := now2 + hourMs, usedAt := none }] ∧
    (resetPassword cfg bcrypt
        (requestPasswordReset (requestPasswordReset db email id1 t1 now1 sendOk1).2
          email id2 t2 now2 sendOk2).2 t1 newPassword now3).1 =
      Except.error ⟨"Invalid reset token", 400, "INVALID_TOKEN"⟩ := by
  have h1 : (requestPasswordReset db email id1 t1 now1 sendOk1).2 =
      { db with verifications :=
          db.verifications.filter (fun v =>
            !(decide (v.userId = u.id ∧ v.vtype = VerificationType.PASSWORD_RESET
              ∧ v.usedAt = none))) ++
          [{ id := id1, userId := u.id, token := t1
             vtype := VerificationType.PASSWORD_RESET
             expiresAt := now1 + hourMs, usedAt := none }] } := by
    cases sendOk1 <;> simp [requestPasswordReset, hu]
  have h2 : (requestPasswordReset (requestPasswordReset db email id1 t1 now1 sendOk1).2
      email id2 t2 now2 sendOk2).2 =
      { db with verifications :=
          db.verifications.filter (fun v =>
            !(decide (v.userId = u.id ∧ v.vtype = VerificationType.PASSWORD_RESET
              ∧ v.usedAt = none))) ++
          [{ id := id2, userId := u.id, token := t2
             vtype := VerificationType.PASSWORD_RESET
             expiresAt := now2 + hourMs, usedAt := none }] } := by
    rw [h1]
    cases sendOk2 <;>
      simp [requestPasswordReset, hu, List.filter_append, List.filter_filter]
  refine ⟨?_, ?_, ?_, ?_⟩
  · simp [createEmailVerification, List.filter_append, filter_not_filter_self]
  · have hnone : ((createEmailVerification cfg
        (createEmailVerification cfg db uid id1 t1 now1 sendOk1).2
        uid id2 t2 now2 sendOk2).2.verifications.find?
          (fun w => decide (w.token = t1))) = none := by
      rw [List.find?_eq_none]
      intro x hx
      simp only [createEmailVerification] at hx
      rcases List.mem_append.1 hx with h1x | h2x
      · have h3 := List.mem_filter.1 h1x
        rcases List.mem_append.1 h3.1 with h4 | h5
        · have h6 := List.mem_filter.1 h4
          simpa using hfresh x h6.1
        · simp only [List.mem_singleton] at h5
          subst h5
          simp at h3
      · simp only [List.mem_singleton] at h2x
        subst h2x
        simpa using fun heq => hne heq.symm
    simp [verifyEmail, hnone]
  · rw [h2]
    simp [List.filter_append, filter_not_filter_self]
  · have hnone : ((requestPasswordReset
        (requestPasswordReset db email id1 t1 now1 sendOk1).2
        email id2 t2 now2 sendOk2).2.verifications.find?
          (fun w => decide (w.token = t1))) = none := by
      rw [List.find?_eq_none]
      intro x hx
      rw [h2] at hx
      rcases List.mem_append.1 hx with hxa | hxb
      · have h6 := List.mem_filter.1 hxa
        simpa using hfresh x h6.1
      · simp only [List.mem_singleton] at hxb
        subst hxb
        simpa using fun heq => hne heq.symm
    simp [resetPassword, hnone]

/-- Witness for C6 at a concrete database, for both token types. -/
theorem issue_twice_single_unused_witness :
    ((createEmailVerification cfg0
        (createEmailVerification cfg0 dbC1 "u1" "i1" "t1" 5 true).2
        "u1" "i2" "t2" 6 true).2.verifications.filter (fun v =>
          decide (v.userId = "u1" ∧ v.vtype = VerificationType.EMAIL_VERIFICATION
            ∧ v.usedAt = none))) =
      [{ id := "i2", userId := "u1", token := "t2"
         vtype := VerificationType.EMAIL_VERIFICATION
         expiresAt := 6 + 24 * hourMs, usedAt := none }] ∧
    (verifyEmail (createEmailVerification cfg0
        (createEmailVerification cfg0 dbC1 "u1" "i1" "t1" 5 true).2
        "u1" "i2" "t2" 6 true).2 "t1" 7).1 =
      Except.error ⟨"Invalid verification token", 400, "INVALID_TOKEN"⟩ ∧
    ((requestPasswordReset
        (requestPasswordReset dbC1 "alice@example.com" "i1" "t1" 5 true).2
        "alice@example.com" "i2" "t2" 6 true).2.verifications.filter (fun v =>
          decide (v.userId = "u1" ∧ v.vtype = VerificationType.PASSWORD_RESET
            ∧ v.usedAt = none))) =
      [{ id := "i2", userId := "u1", token := "t2"
         vtype := VerificationType.PASSWORD_RESET
         expiresAt := 6 + hourMs, usedAt := none }] ∧
    (resetPassword cfg0 bcrypt0
        (requestPasswordReset
          (requestPasswordReset dbC1 "alice@example.com" "i1" "t1" 5 true).2
          "alice@example.com" "i2" "t2" 6 true).2 "t1" "np" 7).1 =
      Except.error ⟨"Invalid reset token", 400, "INVALID_TOKEN"⟩ := by
  exact issue_twice_single_unused cfg0 bcrypt0 dbC1 "u1" "alice@example.com" userA
    "i1" "i2" "t1" "t2" "np" 5 6 7 true true (by decide) (by decide) (by decide)

/-- Fixture database for the password-change scenarios: two sessions for
`userA`, one for `userB`. -/
def dbC7 : DB := ⟨[userA, userB], [sessA1, sessA2, sessB1], []⟩

/-- C7: `changePassword` fails `INVALID_PASSWORD` and leaves the store
untouched when the current-password check fails; on success it updates the
hash and deletes the user's sessions, keeping exactly the caller's session
iff `keepCurrentSession` is true (other users' sessions are untouched), and
leaving zero sessions for the user when `keepCurrentSession` is false. -/
theorem changePassword_outcomes
    (cfg : Config) (bcrypt : Bcrypt) (db : DB)
    (userId currentPassword newPassword sid : String) (now : Millis)
    (u : User) (hu : db.users.find? (fun x => decide (x.id = userId)) = some u) :
    (bcrypt.compare currentPassword u.password = false →
      ∀ keep cur,
        changePassword cfg bcrypt db userId currentPassword newPassword keep cur now =
          (Except.error ⟨"Current password is incorrect", 400, "INVALID_PASSWORD"⟩, db)) ∧
    (bcrypt.compare currentPassword u.password = true → sid ≠ "" →
      (changePassword cfg bcrypt db userId currentPassword newPassword
          true (some sid) now).1 = Except.ok () ∧
      (changePassword cfg bcrypt db userId currentPassword newPassword
          true (some sid) now).2.sessions.filter
            (fun s => decide (s.userId = userId)) =
        db.sessions.filter (fun s => decide (s.userId = userId ∧ s.id = sid)) ∧
      (changePassword cfg bcrypt db userId currentPassword newPassword
          true (some sid) now).2.sessions.filter
            (fun s => !(decide (s.userId = userId))) =
        db.sessions.filter (fun s => !(decide (s.userId = userId))) ∧
      (∀ x ∈ (changePassword cfg bcrypt db userId currentPassword newPassword
          true (some sid) now).2.users, x.id = userId →
        x.password = bcrypt.hash newPassword cfg.BCRYPT_ROUNDS)) ∧
    (bcrypt.compare currentPassword u.password = true → ∀ cur,
      (changePassword cfg bcrypt db userId currentPassword newPassword
          false cur now).1 = Except.ok () ∧
      (changePassword cfg bcrypt db userId currentPassword newPassword
          false cur now).2.sessions.filter
            (fun s => decide (s.userId = userId)) = [] ∧
      (∀ x ∈ (changePassword cfg bcrypt db userId currentPassword newPassword
          false cur now).2.users, x.id = userId →
        x.password = bcrypt.hash newPassword cfg.BCRYPT_ROUNDS)) := by
  refine ⟨?_, ?_, ?_⟩
  · intro hcmp keep cur
    simp [changePassword, hu, hcmp]
  · intro hcmp hsid
    have htruthy : jsTruthyOpt (some sid) = true := by
      simp [jsTruthyOpt, jsTruthy, hsid]
    have heq : changePassword cfg bcrypt db userId currentPassword newPassword
        true (some sid) now =
        (Except.ok (), { db with
          users := db.users.map (fun x =>
            if x.id = userId then
              { x with password := bcrypt.hash newPassword cfg.BCRYPT_ROUNDS
                       updatedAt := now }
            else x)
          sessions := db.sessions.filter (fun s =>
            !(decide (s.userId = userId) && !(decide (some s.id = some sid)))) }) := by
      simp [changePassword, hu, hcmp, htruthy]
    refine ⟨by rw [heq], ?_, ?_, ?_⟩
    · rw [heq]
      refine filter_filter_eq _ _ _ _ (fun s => ?_)
      by_cases h1 : s.userId = userId <;> by_cases h2 : s.id = sid <;> simp [h1, h2]
    · rw [heq]
      refine filter_filter_eq _ _ _ _ (fun s => ?_)
      by_cases h1 : s.userId = userId <;> by_cases h2 : s.id = sid <;> simp [h1, h2]
    · intro x hx hxid
      rw [heq] at hx
      obtain ⟨y, hy, rfl⟩ := List.mem_map.1 hx
      by_cases hyid : y.id = userId
      · simp [hyid]
      · simp only [if_neg hyid] at hxid ⊢
        exact absurd hxid hyid
  · intro hcmp cur
    have heq : changePassword cfg bcrypt db userId currentPassword newPassword
        false cur now =
        (Except.ok (), { db with
          users := db.users.map (fun x =>
            if x.id = userId then
              { x with password := bcrypt.hash newPassword cfg.BCRYPT_ROUNDS
                       updatedAt := now }
            else x)
          sessions := db.sessions.filter (fun s => !(decide (s.userId = userId))) }) := by
      simp [changePassword, hu, hcmp]
    refine ⟨by rw [heq], ?_, ?_⟩
    · rw [heq]
      exact filter_not_filter_self _ _
    · intro x hx hxid
      rw [heq] at hx
      obtain ⟨y, hy, rfl⟩ := List.mem_map.1 hx
      by_cases hyid : y.id = userId
      · simp [hyid]
      · simp only [if_neg hyid] at hxid ⊢
        exact absurd hxid hyid

/-- Witness for C7 exercising wrong password, keep-current, and
revoke-all concretely. -/
theorem changePassword_outcomes_witness :
    changePassword cfg0 bcrypt0 dbC7 "u1" "bad" "np" true (some "s1") 50 =
      (Except.error ⟨"Current password is incorrect", 400, "INVALID_PASSWORD"⟩, dbC7) ∧
    (changePassword cfg0 bcrypt0 dbC7 "u1" "pw" "np" true (some "s1") 50).2.sessions.filter
        (fun s => decide (s.userId = "u1")) =
      dbC7.sessions.filter (fun s => decide (s.userId = "u1" ∧ s.id = "s1")) ∧
    (changePassword cfg0 bcrypt0 dbC7 "u1" "pw" "np" true (some "s1") 50).2.sessions.filter
        (fun s => !(decide (s.userId = "u1"))) =
      dbC7.sessions.filter (fun s => !(decide (s.userId = "u1"))) ∧
    (changePassword cfg0 bcrypt0 dbC7 "u1" "pw" "np" false none 50).2.sessions.filter
        (fun s => decide (s.userId = "u1")) = [] := by
  have T := changePassword_outcomes cfg0 bcrypt0 dbC7 "u1"
  exact ⟨(T "bad" "np" "s1" 50 userA (by decide)).1 (by decide) true (some "s1"),
    ((T "pw" "np" "s1" 50 userA (by decide)).2.1 (by decide) (by decide)).2.1,
    ((T "pw" "np" "s1" 50 userA (by decide)).2.1 (by decide) (by decide)).2.2.1,
    ((T "pw" "np" "s1" 50 userA (by decide)).2.2 (by decide) none).2.1⟩

/-- C8: usernames and emails are lower-cased and trimmed before comparison
and storage: `register` stores normalized identifiers and reports
`EMAIL_EXISTS` / `USERNAME_EXISTS` against any case or whitespace variant
of a taken identifier; `updateProfile` checks and stores the normalized
username; `login` and the by-email/by-username lookups depend on their
argument only through its normalization. -/
theorem normalization_and_uniqueness
    (cfg : Config) (bcrypt : Bcrypt) (db : DB)
    (i1 i2 i3 : String) (now : Millis) (sendOk : Bool) (data : RegisterData)
    (userId : String) (updates : ProfileUpdates)
    (email1 email2 password : String) (info : SessionData)
    (geo : Option LocationInfo) (sid stok csrf : String) :
    (∀ su db', register cfg bcrypt db i1 i2 i3 now sendOk data = (Except.ok su, db') →
      su.email = normalizeId data.email ∧ su.username = normalizeId data.username) ∧
    ((∃ ex ∈ db.users, ex.email = normalizeId data.email) →
      (∀ x ∈ db.users, x.username ≠ normalizeId data.username) →
      (register cfg bcrypt db i1 i2 i3 now sendOk data).1 =
        Except.error ⟨"Email already in use", 400, "EMAIL_EXISTS"⟩) ∧
    ((∀ x ∈ db.users, x.email ≠ normalizeId data.email) →
      (∃ ex ∈ db.users, ex.username = normalizeId data.username) →
      (register cfg bcrypt db i1 i2 i3 now sendOk data).1 =
        Except.error ⟨"Username already taken", 400, "USERNAME_EXISTS"⟩) ∧
    (∀ s, updates.username = some s → s ≠ "" →
      (∃ ex ∈ db.users, ex.username = normalizeId s ∧ ex.id ≠ userId) →
      (updateProfile db userId updates now).1 =
        Except.error ⟨"Username already taken", 400, "USERNAME_EXISTS"⟩) ∧
    (∀ s su db', updates.username = some s → s ≠ "" →
      updateProfile db userId updates now = (Except.ok su, db') →
      su.username = jsTrim (normalizeId s)) ∧
    (normalizeId email1 = normalizeId email2 →
      login cfg bcrypt db email1 password info geo sid stok csrf now =
      login cfg bcrypt db email2 password info geo sid stok csrf now) ∧
    (normalizeId email1 = normalizeId email2 →
      getUserByEmail db email1 = getUserByEmail db email2 ∧
      getUserByUsername db email1 = getUserByUsername db email2) := by
  refine ⟨?_, ?_, ?_, ?_, ?_, ?_, ?_⟩
  · intro su db' h
    simp only [register] at h
    split at h
    · split at h <;> simp at h
    · simp only [Prod.mk.injEq, Except.ok.injEq] at h
      obtain ⟨hsu, hdb⟩ := h
      subst hsu
      exact ⟨rfl, rfl⟩
  · intro h1 h2
    obtain ⟨ex, hexmem, hexeq⟩ := h1
    cases hfind : db.users.find? (fun u =>
        decide (u.email = normalizeId data.email ∨
          u.username = normalizeId data.username)) with
    | none =>
      exfalso
      have := List.find?_eq_none.1 hfind ex hexmem
      simp [hexeq] at this
    | some y =>
      have hy := List.find?_some hfind
      have hymem := List.mem_of_find?_eq_some hfind
      simp only [decide_eq_true_eq] at hy
      have hyemail : y.email = normalizeId data.email := by
        rcases hy with h | h
        · exact h
        · exact absurd h (h2 y hymem)
      simp only [Bool.decide_or] at hfind
      simp [register, hfind, hyemail]
  · intro h1 h2
    obtain ⟨ex, hexmem, hexeq⟩ := h2
    cases hfind : db.users.find? (fun u =>
        decide (u.email = normalizeId data.email ∨
          u.username = normalizeId data.username)) with
    | none =>
      exfalso
      have := List.find?_eq_none.1 hfind ex hexmem
      simp [hexeq] at this
    | some y =>
      have hy := List.find?_some hfind
      have hymem := List.mem_of_find?_eq_some hfind
      simp only [decide_eq_true_eq] at hy
      have hyemail : ¬ y.email = normalizeId data.email := h1 y hymem
      simp only [Bool.decide_or] at hfind
      simp [register, hfind, hyemail]
  · intro s hs hsne hconf
    obtain ⟨ex, hexmem, hexu, hexid⟩ := hconf
    cases hfind : db.users.find? (fun u =>
        decide (u.username = normalizeId s ∧ u.id ≠ userId)) with
    | none =>
      exfalso
      have := List.find?_eq_none.1 hfind ex hexmem
      simp [hexu, hexid] at this
    | some y =>
      simp only [Bool.decide_and, decide_not] at hfind
      simp [updateProfile, hs, jsTruthyOpt, jsTruthy, hsne, hfind]
  · intro s su db' hs hsne h
    simp only [updateProfile, hs, Option.getD_some, jsTruthyOpt, jsTruthy] at h
    rw [show (!(s == "")) = true by simp [hsne]] at h
    simp only [if_true] at h
    cases hconf : db.users.find? (fun u =>
        decide (u.username = normalizeId s ∧ u.id ≠ userId)) with
    | some y =>
      rw [hconf] at h
      simp at h
    | none =>
      rw [hconf] at h
      cases huser : db.users.find? (fun u => decide (u.id = userId)) with
      | none =>
        rw [huser] at h
        simp at h
      | some user =>
        rw [huser] at h
        simp only [Prod.mk.injEq, Except.ok.injEq] at h
        obtain ⟨hsu, hdb⟩ := h
        subst hsu
        rfl
  · intro hnorm
    unfold login
    rw [hnorm]
  · intro hnorm
    constructor
    · unfold getUserByEmail
      rw [hnorm]
    · unfold getUserByUsername
      rw [hnorm]

/-- Witness for C8: conflicts against case/whitespace variants and
normalized storage at a concrete database. -/
theorem normalization_and_uniqueness_witness :
    (∃ su db', register cfg0 bcrypt0 dbC3 "u9" "v9" "t9" 0 true
        ⟨" NewUser ", " New@Example.Com ", "pw", none, none⟩ = (Except.ok su, db') ∧
      su.email = "new@example.com" ∧ su.username = "newuser") ∧
    (register cfg0 bcrypt0 dbC3 "u9" "v9" "t9" 0 true
        ⟨"freshname", " ALICE@Example.Com ", "pw", none, none⟩).1 =
      Except.error ⟨"Email already in use", 400, "EMAIL_EXISTS"⟩ ∧
    (register cfg0 bcrypt0 dbC3 "u9" "v9" "t9" 0 true
        ⟨" ALICE ", "fresh@example.com", "pw", none, none⟩).1 =
      Except.error ⟨"Username already taken", 400, "USERNAME_EXISTS"⟩ ∧
    (updateProfile dbC3 "u3" { username := some " Alice " } 0).1 =
      Except.error ⟨"Username already taken", 400, "USERNAME_EXISTS"⟩ ∧
    (∃ su db', updateProfile dbC3 "u1" { username := some " NewName " } 0 =
        (Except.ok su, db') ∧ su.username = "newname") ∧
    login cfg0 bcrypt0 dbC3 " Alice@EXAMPLE.com " "pw" {} none "s9" "t9" "c9" 0 =
      login cfg0 bcrypt0 dbC3 "alice@example.com" "pw" {} none "s9" "t9" "c9" 0 ∧
    getUserByEmail dbC3 " Alice@EXAMPLE.com " = getUserByEmail dbC3 "alice@example.com" := by
  refine ⟨?_, ?_, ?_, ?_, ?_, ?_, ?_⟩
  · obtain ⟨su, db', h⟩ :
        ∃ su db', register cfg0 bcrypt0 dbC3 "u9" "v9" "t9" 0 true
          ⟨" NewUser ", " New@Example.Com ", "pw", none, none⟩ =
            (Except.ok su, db') := ⟨_, _, rfl⟩
    have hcon := (normalization_and_uniqueness cfg0 bcrypt0 dbC3 "u9" "v9" "t9" 0 true
      ⟨" NewUser ", " New@Example.Com ", "pw", none, none⟩ "u1" {} "" "" "" {} none
      "" "" "").1 su db' h
    exact ⟨su, db', h, by rw [hcon.1]; decide, by rw [hcon.2]; decide⟩
  · exact (normalization_and_uniqueness cfg0 bcrypt0 dbC3 "u9" "v9" "t9" 0 true
      ⟨"freshname", " ALICE@Example.Com ", "pw", none, none⟩ "u1" {} "" "" "" {} none
      "" "" "").2.1 ⟨userA, by decide, by decide⟩ (by decide)
  · exact (normalization_and_uniqueness cfg0 bcrypt0 dbC3 "u9" "v9" "t9" 0 true
      ⟨" ALICE ", "fresh@example.com", "pw", none, none⟩ "u1" {} "" "" "" {} none
      "" "" "").2.2.1 (by decide) ⟨userA, by decide, by decide⟩
  · exact (normalization_and_uniqueness cfg0 bcrypt0 dbC3 "u9" "v9" "t9" 0 true
      ⟨"x", "x", "x", none, none⟩ "u3" { username := some " Alice " } "" "" "" {}
      none "" "" "").2.2.2.1 " Alice " rfl (by decide)
      ⟨userA, by decide, by decide, by decide⟩
  · obtain ⟨su, db', h⟩ :
        ∃ su db', updateProfile dbC3 "u1" { username := some " NewName " } 0 =
          (Except.ok su, db') := ⟨_, _, rfl⟩
    have hcon := (normalization_and_uniqueness cfg0 bcrypt0 dbC3 "u9" "v9" "t9" 0 true
      ⟨"x", "x", "x", none, none⟩ "u1" { username := some " NewName " } "" "" "" {}
      none "" "" "").2.2.2.2.1 " NewName " su db' rfl (by decide) h
    exact ⟨su, db', h, by rw [hcon]; decide⟩
  · exact (normalization_and_uniqueness cfg0 bcrypt0 dbC3 "u9" "v9" "t9" 0 true
      ⟨"x", "x", "x", none, none⟩ "u1" {} " Alice@EXAMPLE.com " "alice@example.com"
      "pw" {} none "s9" "t9" "c9").2.2.2.2.2.1 (by decide)
  · exact ((normalization_and_uniqueness cfg0 bcrypt0 dbC3 "u9" "v9" "t9" 0 true
      ⟨"x", "x", "x", none, none⟩ "u1" {} " Alice@EXAMPLE.com " "alice@example.com"
      "pw" {} none "s9" "t9" "c9").2.2.2.2.2.2 (by decide)).1

/-- An unused EMAIL_VERIFICATION token fixture for the unverified user. -/
def verifEV : Verification :=
  { id := "v7", userId := "u3", token := "evtok"
    vtype := VerificationType.EMAIL_VERIFICATION, expiresAt := 100, usedAt := none }

/-- Fixture database on which every user-returning operation succeeds. -/
def dbC9 : DB := ⟨[userA, userB, userUnv], [sessA1], [verifReset, verifEV]⟩

/-- C9: every operation that returns a user returns the stored user with
the password field removed (`sanitizeUser` of a row of the store); no
output carries the hash. -/
theorem outputs_are_sanitized
    (cfg : Config) (bcrypt : Bcrypt) (db : DB)
    (i1 i2 i3 : String) (now : Millis) (sendOk : Bool) (data : RegisterData)
    (email password : String) (info : SessionData) (geo : Option LocationInfo)
    (sid stok csrf vtok rtok newPassword userId stoken un em : String)
    (updates : ProfileUpdates) (role : Role) :
    (∀ su db', register cfg bcrypt db i1 i2 i3 now sendOk data = (Except.ok su, db') →
      ∃ u ∈ db'.users, su = sanitizeUser u) ∧
    (∀ r db', login cfg bcrypt db email password info geo sid stok csrf now =
        (Except.ok r, db') → ∃ u ∈ db.users, r.user = sanitizeUser u) ∧
    (∀ su db', verifyEmail db vtok now = (Except.ok su, db') →
      ∃ u ∈ db'.users, su = sanitizeUser u) ∧
    (∀ su db', resetPassword cfg bcrypt db rtok newPassword now = (Except.ok su, db') →
      ∃ u ∈ db'.users, su = sanitizeUser u) ∧
    (∀ su db', updateProfile db userId updates now = (Except.ok su, db') →
      ∃ u ∈ db'.users, su = sanitizeUser u) ∧
    (∀ p db', validateSession db stoken now = (some p, db') →
      ∃ u ∈ db.users, p.1 = sanitizeUser u) ∧
    (∀ su, getUserById db userId = some su → ∃ u ∈ db.users, su = sanitizeUser u) ∧
    (∀ su, getUserByUsername db un = some su → ∃ u ∈ db.users, su = sanitizeUser u) ∧
    (∀ su, getUserByEmail db em = some su → ∃ u ∈ db.users, su = sanitizeUser u) ∧
    (∀ su db', addRole db userId role now = (Except.ok su, db') →
      ∃ u ∈ db'.users, su = sanitizeUser u) ∧
    (∀ su db', removeRole db userId role now = (Except.ok su, db') →
      ∃ u ∈ db'.users, su = sanitizeUser u) := by
  refine ⟨?_, ?_, ?_, ?_, ?_, ?_, ?_, ?_, ?_, ?_, ?_⟩
  · intro su db' h
    simp only [register] at h
    split at h
    · split at h <;> simp at h
    · simp only [Prod.mk.injEq, Except.ok.injEq] at h
      obtain ⟨hsu, hdb⟩ := h
      subst hsu
      subst hdb
      refine ⟨_, ?_, rfl⟩
      simp [createEmailVerification]
  · intro r db' h
    simp only [login] at h
    split at h
    · simp at h
    next u hu =>
      split at h
      · simp at h
      · split at h
        · simp at h
        · simp only [Prod.mk.injEq, Except.ok.injEq] at h
          obtain ⟨hr, hdb⟩ := h
          subst hr
          exact ⟨u, List.mem_of_find?_eq_some hu, rfl⟩
  · intro su db' h
    simp only [verifyEmail] at h
    split at h
    · simp at h
    next v hfind =>
      split at h
      · simp at h
      · split at h
        · simp at h
        · split at h
          · simp at h
          · split at h
            · simp at h
            next user huser =>
              simp only [Prod.mk.injEq, Except.ok.injEq] at h
              obtain ⟨hsu, hdb⟩ := h
              subst hsu
              subst hdb
              have hid : user.id = v.userId := by
                simpa using List.find?_some huser
              refine ⟨_, List.mem_map_of_mem _ (List.mem_of_find?_eq_some huser), ?_⟩
              rw [if_pos hid]
  · intro su db' h
    simp only [resetPassword] at h
    split at h
    · simp at h
    next v hfind =>
      split at h
      · simp at h
      · split at h
        · simp at h
        · split at h
          · simp at h
          · split at h
            · simp at h
            next user huser =>
              simp only [Prod.mk.injEq, Except.ok.injEq] at h
              obtain ⟨hsu, hdb⟩ := h
              subst hsu
              subst hdb
              have hid : user.id = v.userId := by
                simpa using List.find?_some huser
              refine ⟨_, List.mem_map_of_mem _ (List.mem_of_find?_eq_some huser), ?_⟩
              rw [if_pos hid]
  · intro su db' h
    simp only [updateProfile] at h
    split at h
    · simp at h
    · split at h
      · simp at h
      next user huser =>
        simp only [Prod.mk.injEq, Except.ok.injEq] at h
        obtain ⟨hsu, hdb⟩ := h
        subst hsu
        subst hdb
        have hid : user.id = userId := by
          simpa using List.find?_some huser
        refine ⟨_, List.mem_map_of_mem _ (List.mem_of_find?_eq_some huser), ?_⟩
        rw [if_pos hid]
  · intro p db' h
    simp only [validateSession] at h
    split at h
    · simp at h
    · split at h
      · simp at h
      next sess hsess =>
        split at h
        · simp at h
        · split at h
          · simp at h
          next user huser =>
            split at h
            · simp at h
            · simp only [Prod.mk.injEq, Option.some.injEq] at h
              obtain ⟨hp, hdb⟩ := h
              subst hp
              exact ⟨user, List.mem_of_find?_eq_some huser, rfl⟩
  · intro su h
    unfold getUserById at h
    rcases Option.map_eq_some'.1 h with ⟨u, hu, hsu⟩
    exact ⟨u, List.mem_of_find?_eq_some hu, hsu.symm⟩
  · intro su h
    unfold getUserByUsername at h
    rcases Option.map_eq_some'.1 h with ⟨u, hu, hsu⟩
    exact ⟨u, List.mem_of_find?_eq_some hu, hsu.symm⟩
  · intro su h
    unfold getUserByEmail at h
    rcases Option.map_eq_some'.1 h with ⟨u, hu, hsu⟩
    exact ⟨u, List.mem_of_find?_eq_some hu, hsu.symm⟩
  · intro su db' h
    simp only [addRole] at h
    split at h
    · simp at h
    next user huser =>
      split at h
      · simp only [Prod.mk.injEq, Except.ok.injEq] at h
        obtain ⟨hsu, hdb⟩ := h
        subst hsu
        subst hdb
        exact ⟨user, List.mem_of_find?_eq_some huser, rfl⟩
      · simp only [Prod.mk.injEq, Except.ok.injEq] at h
        obtain ⟨hsu, hdb⟩ := h
        subst hsu
        subst hdb
        have hid : user.id = userId := by
          simpa using List.find?_some huser
        refine ⟨_, List.mem_map_of_mem _ (List.mem_of_find?_eq_some huser), ?_⟩
        rw [if_pos hid]
  · intro su db' h
    simp only [removeRole] at h
    split at h
    · simp at h
    next user huser =>
      simp only [Prod.mk.injEq, Except.ok.injEq] at h
      obtain ⟨hsu, hdb⟩ := h
      subst hsu
      subst hdb
      have hid : user.id = userId := by
        simpa using List.find?_some huser
      refine ⟨_, List.mem_map_of_mem _ (List.mem_of_find?_eq_some huser), ?_⟩
      rw [if_pos hid]

/-- Witness for C9: every user-returning operation succeeds on a concrete
database and yields a sanitized stored user. -/
theorem outputs_are_sanitized_witness :
    (∃ su db', register cfg0 bcrypt0 dbC9 "u9" "v9" "t9" 50 true
        ⟨"dave", "dave@example.com", "pw", none, none⟩ = (Except.ok su, db') ∧
      ∃ u ∈ db'.users, su = sanitizeUser u) ∧
    (∃ r db', login cfg0 bcrypt0 dbC9 "alice@example.com" "pw" {} none
        "s9" "t9" "c9" 50 = (Except.ok r, db') ∧
      ∃ u ∈ dbC9.users, r.user = sanitizeUser u) ∧
    (∃ su db', verifyEmail dbC9 "evtok" 50 = (Except.ok su, db') ∧
      ∃ u ∈ db'.users, su = sanitizeUser u) ∧
    (∃ su db', resetPassword cfg0 bcrypt0 dbC9 "tok" "np" 50 = (Except.ok su, db') ∧
      ∃ u ∈ db'.users, su = sanitizeUser u) ∧
    (∃ su db', updateProfile dbC9 "u1" { username := some "newname" } 50 =
        (Except.ok su, db') ∧ ∃ u ∈ db'.users, su = sanitizeUser u) ∧
    (∃ p db', validateSession dbC9 "stok1" 50 = (some p, db') ∧
      ∃ u ∈ dbC9.users, p.1 = sanitizeUser u) ∧
    (∃ su, getUserById dbC9 "u1" = some su ∧
      ∃ u ∈ dbC9.users, su = sanitizeUser u) ∧
    (∃ su, getUserByUsername dbC9 "alice" = some su ∧
      ∃ u ∈ dbC9.users, su = sanitizeUser u) ∧
    (∃ su, getUserByEmail dbC9 "alice@example.com" = some su ∧
      ∃ u ∈ dbC9.users, su = sanitizeUser u) ∧
    (∃ su db', addRole dbC9 "u1" Role.ADMIN 50 = (Except.ok su, db') ∧
      ∃ u ∈ db'.users, su = sanitizeUser u) ∧
    (∃ su db', removeRole dbC9 "u1" Role.ADMIN 50 = (Except.ok su, db') ∧
      ∃ u ∈ db'.users, su = sanitizeUser u) := by
  have T := outputs_are_sanitized cfg0 bcrypt0 dbC9 "u9" "v9" "t9" 50 true
    ⟨"dave", "dave@example.com", "pw", none, none⟩ "alice@example.com" "pw" {} none
    "s9" "t9" "c9" "evtok" "tok" "np" "u1" "stok1" "alice" "alice@example.com"
    { username := some "newname" } Role.ADMIN
  refine ⟨?_, ?_, ?_, ?_, ?_, ?_, ?_, ?_, ?_, ?_, ?_⟩
  · obtain ⟨su, db', h⟩ :
        ∃ su db', register cfg0 bcrypt0 dbC9 "u9" "v9" "t9" 50 true
          ⟨"dave", "dave@example.com", "pw", none, none⟩ = (Except.ok su, db') :=
      ⟨_, _, rfl⟩
    exact ⟨su, db', h, T.1 su db' h⟩
  · obtain ⟨r, db', h⟩ :
        ∃ r db', login cfg0 bcrypt0 dbC9 "alice@example.com" "pw" {} none
          "s9" "t9" "c9" 50 = (Except.ok r, db') := ⟨_, _, rfl⟩
    exact ⟨r, db', h, T.2.1 r db' h⟩
  · obtain ⟨su, db', h⟩ :
        ∃ su db', verifyEmail dbC9 "evtok" 50 = (Except.ok su, db') := ⟨_, _, rfl⟩
    exact ⟨su, db', h, T.2.2.1 su db' h⟩
  · obtain ⟨su, db', h⟩ :
        ∃ su db', resetPassword cfg0 bcrypt0 dbC9 "tok" "np" 50 =
          (Except.ok su, db') := ⟨_, _, rfl⟩
    exact ⟨su, db', h, T.2.2.2.1 su db' h⟩
  · obtain ⟨su, db', h⟩ :
        ∃ su db', updateProfile dbC9 "u1" { username := some "newname" } 50 =
          (Except.ok su, db') := ⟨_, _, rfl⟩
    exact ⟨su, db', h, T.2.2.2.2.1 su db' h⟩
  · obtain ⟨p, db', h⟩ :
        ∃ p db', validateSession dbC9 "stok1" 50 = (some p, db') := ⟨_, _, rfl⟩
    exact ⟨p, db', h, T.2.2.2.2.2.1 p db' h⟩
  · exact ⟨_, rfl, T.2.2.2.2.2.2.1 _ rfl⟩
  · exact ⟨_, rfl, T.2.2.2.2.2.2.2.1 _ rfl⟩
  · exact ⟨_, rfl, T.2.2.2.2.2.2.2.2.1 _ rfl⟩
  · obtain ⟨su, db', h⟩ :
        ∃ su db', addRole dbC9 "u1" Role.ADMIN 50 = (Except.ok su, db') :=
      ⟨_, _, rfl⟩
    exact ⟨su, db', h, T.2.2.2.2.2.2.2.2.2.1 su db' h⟩
  · obtain ⟨su, db', h⟩ :
        ∃ su db', removeRole dbC9 "u1" Role.ADMIN 50 = (Except.ok su, db') :=
      ⟨_, _, rfl⟩
    exact ⟨su, db', h, T.2.2.2.2.2.2.2.2.2.2 su db' h⟩

/-- An empty database fixture. -/
def dbEmpty : DB := ⟨[], [], []⟩

/-- Registration input for the display-name counterexample: display name
absent, full name with a leading space, username that trims to empty. -/
def dataC10 : RegisterData :=
  { username := "   ", email := "c10@example.com", password := "pw"
    fullName := some " John", displayName := none }

/-- C10 counterexample: the claim says the display name defaults to the
first whitespace-separated word of `fullName` ("John" here) and is always
non-empty, but the code splits the untrimmed `fullName` on a single space
character, gets the empty chunk before the leading space, falls through to
the normalized username, and stores the empty string. -/
theorem register_displayName_counterexample :
    dataC10.displayName = none ∧ dataC10.fullName = some " John" ∧
    (∃ su db', register cfg0 bcrypt0 dbEmpty "u9" "v9" "t9" 0 true dataC10 =
      (Except.ok su, db') ∧ su.displayName = "") := by
  exact ⟨rfl, rfl, _, _, rfl, rfl⟩

/-- C10 (amended): when the provided display name is absent or trims to
empty, `register` stores the chunk of `fullName` before the first space
character when that chunk is non-empty (the code does not trim `fullName`
first and splits on the space character only, so a leading space yields
the empty chunk), otherwise the normalized username; the stored display
name is non-empty provided the normalized username is non-empty. -/
theorem register_displayName_default
    (cfg : Config) (bcrypt : Bcrypt) (db : DB) (i1 i2 i3 : String)
    (now : Millis) (sendOk : Bool) (data : RegisterData)
    (su : SafeUser) (db' : DB)
    (h : register cfg bcrypt db i1 i2 i3 now sendOk data = (Except.ok su, db')) :
    ((∀ d, data.displayName = some d → jsTrim d = "") →
      (∀ f, data.fullName = some f → firstSpaceChunk f ≠ "" →
        su.displayName = firstSpaceChunk f) ∧
      (data.fullName = none → su.displayName = normalizeId data.username) ∧
      (∀ f, data.fullName = some f → firstSpaceChunk f = "" →
        su.displayName = normalizeId data.username)) ∧
    (normalizeId data.username ≠ "" → su.displayName ≠ "") := by
  have hdn : su.displayName =
      jsOrStr (jsOrOpt (data.displayName.map jsTrim)
        (data.fullName.map firstSpaceChunk)) (normalizeId data.username) := by
    simp only [register] at h
    split at h
    · split at h <;> simp at h
    · simp only [Prod.mk.injEq, Except.ok.injEq] at h
      obtain ⟨hsu, _⟩ := h
      subst hsu
      rfl
  constructor
  · intro hd
    refine ⟨?_, ?_, ?_⟩
    · intro f hf hne
      rw [hdn, hf]
      cases hdisp : data.displayName with
      | none => simp [jsOrOpt, jsOrStr, hne]
      | some d =>
        have htrim := hd d hdisp
        simp [jsOrOpt, jsOrStr, htrim, hne]
    · intro hf
      rw [hdn, hf]
      cases hdisp : data.displayName with
      | none => simp [jsOrOpt, jsOrStr]
      | some d =>
        have htrim := hd d hdisp
        simp [jsOrOpt, jsOrStr, htrim]
    · intro f hf hchunk
      rw [hdn, hf]
      cases hdisp : data.displayName with
      | none => simp [jsOrOpt, jsOrStr, hchunk]
      | some d =>
        have htrim := hd d hdisp
        simp [jsOrOpt, jsOrStr, htrim, hchunk]
  · intro hu
    rw [hdn]
    cases hopt : jsOrOpt (data.displayName.map jsTrim)
        (data.fullName.map firstSpaceChunk) with
    | none => simpa [jsOrStr] using hu
    | some s =>
      simp only [jsOrStr]
      split
      · exact hu
      next hs => exact hs

/-- Witness for C10 (amended): a full name with a non-empty first chunk is
used, and the result is non-empty. -/
theorem register_displayName_default_witness :
    ∃ su db', register cfg0 bcrypt0 dbEmpty "u9" "v9" "t9" 0 true
      ⟨"bob", "b@x.co", "pw", some "John Doe", none⟩ = (Except.ok su, db') ∧
    su.displayName = "John" ∧ su.displayName ≠ "" := by
  obtain ⟨su, db', h⟩ :
      ∃ su db', register cfg0 bcrypt0 dbEmpty "u9" "v9" "t9" 0 true
        ⟨"bob", "b@x.co", "pw", some "John Doe", none⟩ = (Except.ok su, db') :=
    ⟨_, _, rfl⟩
  have T := register_displayName_default cfg0 bcrypt0 dbEmpty "u9" "v9" "t9" 0 true
    ⟨"bob", "b@x.co", "pw", some "John Doe", none⟩ su db' h
  have h1 := (T.1 (by intro d hd; cases hd)).1 "John Doe" rfl (by decide)
  refine ⟨su, db', h, ?_, T.2 (by decide)⟩
  rw [h1]
  decide
